import Mathlib

/-!
Verification of the `crash` repository: a Rust panic-capture hook
(`src/src/main.rs`) that writes Sentry-style JSON crash reports, and an
HTTP server (`src/server/src/main.rs`) that lists crash reports and
summarizes paired minidump snapshots.

The development is a shallow embedding: JSON values are an inductive
type, the serde `Serialize` derives are modelled field by field, the
`minidump` library's stream accessors are modelled as the optional
sections of an abstract `Minidump` record, and the filesystem is an
abstract read-only map from paths to load outcomes.
-/

set_option maxHeartbeats 1000000

namespace Crash

/-- JSON values, as produced by serde_json. Objects are association
lists of key/value pairs; numeric values in this development are all
unsigned integers. -/
inductive Json where
  | null : Json
  | bool : Bool → Json
  | num : Nat → Json
  | str : String → Json
  | arr : List Json → Json
  | obj : List (String × Json) → Json

/-- First-match lookup of a key in a JSON object's field list,
modelling `serde_json::Value::get` on an object. -/
def lookupField : List (String × Json) → String → Option Json
  | [], _ => none
  | (k, v) :: rest, key => if k = key then some v else lookupField rest key

/-- `Value::get(key)`: field lookup, `none` on non-objects. -/
def Json.getField : Json → String → Option Json
  | .obj fields, key => lookupField fields key
  | _, _ => none

/-- `Value::as_str()`: the payload of a JSON string, `none` otherwise. -/
def Json.asStr : Json → Option String
  | .str s => some s
  | _ => none

/-- Whether a JSON value is a number (serde_json `is_number`). -/
def Json.isNumber : Json → Bool
  | .num _ => true
  | _ => false

/-! ## Recorder (`src/src/main.rs`) -/

/-- `MyFrame`: one stack frame of the report, every field optional
since symbol information may be stripped. -/
structure MyFrame where
  filename : Option String
  lineno : Option Nat
  colno : Option Nat
  function : Option String
  deriving DecidableEq

/-- `MyStacktrace`: the list of frames of the report. -/
structure MyStacktrace where
  frames : List MyFrame

/-- `SentryEvent`: the persisted crash event. Note `timestamp` is a
`String` in the Rust struct. -/
structure SentryEvent where
  event_id : String
  timestamp : String
  message : Option String
  level : Option String
  platform : Option String
  stacktrace : Option MyStacktrace

/-- The panic payload as seen by the hook's downcast chain: a `&str`
payload, a `String` payload, or any other type. -/
inductive PanicPayload where
  | strRef : String → PanicPayload
  | strOwned : String → PanicPayload
  | other : PanicPayload

/-- The hook's message extraction: downcast to `&str` first, then to
`String`, else the fixed fallback literal. -/
def extractMessage : PanicPayload → String
  | .strRef s => s
  | .strOwned s => s
  | .other => "Panic occurred without a string message."

/-- `frames.reverse()` followed by the emptiness check: the hook stores
`Some` of the reversed frames when nonempty, `None` otherwise. -/
def buildStacktrace (rawFrames : List MyFrame) : Option MyStacktrace :=
  let frames := rawFrames.reverse
  if frames.isEmpty then none else some ⟨frames⟩

/-- Assembly of the `SentryEvent` in `custom_panic_hook`, taking the
already-generated id and timestamp string and the raw (outermost-first)
resolved frames as inputs. -/
def mkSentryEvent (eventId timestampStr : String) (payload : PanicPayload)
    (rawFrames : List MyFrame) : SentryEvent :=
  { event_id := eventId
    timestamp := timestampStr
    message := some (extractMessage payload)
    level := some "fatal"
    platform := some "rust"
    stacktrace := buildStacktrace rawFrames }

/-- serde serialization of an `Option<String>` field. -/
def optStrJson : Option String → Json
  | some s => .str s
  | none => .null

/-- serde serialization of an `Option<u32>` field. -/
def optNatJson : Option Nat → Json
  | some n => .num n
  | none => .null

/-- `Serialize` derive for `MyFrame`. -/
def frameToJson (f : MyFrame) : Json :=
  .obj [("filename", optStrJson f.filename),
        ("lineno", optNatJson f.lineno),
        ("colno", optNatJson f.colno),
        ("function", optStrJson f.function)]

/-- `Serialize` derive for `MyStacktrace`. -/
def stacktraceToJson (st : MyStacktrace) : Json :=
  .obj [("frames", .arr (st.frames.map frameToJson))]

/-- `Serialize` derive for `SentryEvent`: `event_id` and `timestamp`
are `String` fields, so they serialize as JSON strings. -/
def sentryEventToJson (e : SentryEvent) : Json :=
  .obj [("event_id", .str e.event_id),
        ("timestamp", .str e.timestamp),
        ("message", optStrJson e.message),
        ("level", optStrJson e.level),
        ("platform", optStrJson e.platform),
        ("stacktrace",
          match e.stacktrace with
          | some st => stacktraceToJson st
          | none => .null)]

/-- `format!("crash_report_{}.json", id)`. -/
def reportFilename (id : String) : String :=
  "crash_report_" ++ id ++ ".json"

/-- `format!("crash_dump_{}.dmp", id)`. -/
def dumpFilename (id : String) : String :=
  "crash_dump_" ++ id ++ ".dmp"

/-! ## Server (`src/server/src/main.rs`) -/

/-- An entry of the `GET /crashes` response. -/
structure CrashSummary where
  id : String
  timestamp : Option String
  message : Option String

/-- `str::strip_prefix`: drop a leading pattern, `none` if absent
(stated over the character lists of the strings). -/
def dropStem (stem s : String) : Option String :=
  if stem.data.isPrefixOf s.data then
    some ⟨s.data.drop stem.data.length⟩
  else none

/-- `str::strip_suffix`: drop a trailing pattern, `none` if absent
(stated over the character lists of the strings). -/
def dropTail (tail s : String) : Option String :=
  if tail.data.isSuffixOf s.data then
    some ⟨s.data.take (s.data.length - tail.data.length)⟩
  else none

/-- `collect_crash_ids`: scan the directory entries, keeping for each
entry matching `crash_report_<id>.json` the embedded id. -/
def collect_crash_ids (entries : List String) : List String :=
  entries.filterMap fun name =>
    (dropStem "crash_report_" name).bind (dropTail ".json")

/-! ### Minidump model

The `minidump` crate is an external library; its streams are modelled
as the independently-optional sections of an abstract `Minidump`
record, with `none` standing for a `get_stream` `Err` (section missing
or malformed). -/

/-- `MinidumpSystemInfo`: symbolic OS family and CPU architecture tags
(the `Debug` renderings of the crate's `Os` and `Cpu` enums). -/
structure MinidumpSystemInfo where
  os : String
  cpu : String

/-- `MinidumpException`: the raw exception code and faulting thread id.
`get_crash_reason` consumes the raw code together with OS and CPU. -/
structure MinidumpException where
  raw_code : Nat
  thread_id : Nat

/-- `MinidumpMiscInfo`: the optionally-populated raw fields surfaced by
the summarizer. -/
structure MinidumpMiscInfo where
  process_create_time : Option Nat
  process_id : Option Nat
  processor_max_mhz : Option Nat
  processor_current_mhz : Option Nat

/-- A thread of the thread list. `resolveContext` models
`t.context(system_info, misc_info)` followed by
`get_instruction_pointer`: the resolved instruction pointer when the
per-thread context blob can be decoded, `none` when it cannot. -/
structure MinidumpThread where
  resolveContext : MinidumpSystemInfo → Option MinidumpMiscInfo → Option Nat

/-- A loaded module as surfaced by the summarizer. -/
structure MinidumpModule where
  code_file : String
  version : Option String
  base_address : Nat
  size : Nat

/-- The decoded minidump: one independently-optional field per stream
the summarizer requests. -/
structure Minidump where
  system_info : Option MinidumpSystemInfo
  exception : Option MinidumpException
  thread_list : Option (List MinidumpThread)
  misc_info : Option MinidumpMiscInfo
  module_list : Option (List MinidumpModule)
  unloaded_list : Option (List Unit)
  memory_info_list : Option (List Unit)
  memory_list : Option (List Unit)

/-- The crate's `get_crash_reason`, abstract: a function of the raw
exception code and the OS and CPU tags. -/
def CrashReasonFn : Type := Nat → String → String → String

/-- `format!("0x{:x}", n)`: lowercase hexadecimal with radix marker. -/
def hexStr (n : Nat) : String :=
  "0x" ++ String.mk (Nat.toDigits 16 n)

/-- The per-thread closure of the summarizer's thread section: resolve
the instruction pointer through system info (and misc info when
available), else the fixed `"N/A"` entry. -/
def threadIpEntry (dump : Minidump) (t : MinidumpThread) : Json :=
  match dump.system_info with
  | some sys =>
      match t.resolveContext sys dump.misc_info with
      | some ip => .str (hexStr ip)
      | none => .str "N/A"
  | none => .str "N/A"

/-- One module entry of the summarizer's module section. -/
def moduleToJson (m : MinidumpModule) : Json :=
  .obj [("name", .str m.code_file),
        ("version", .str (m.version.getD "")),
        ("base_address", .str (hexStr m.base_address)),
        ("size", .num m.size)]

/-- The summarizer's misc-info section. -/
def miscInfoJson (misc : MinidumpMiscInfo) : Json :=
  .obj [("process_create_time", optNatJson misc.process_create_time),
        ("process_id", optNatJson misc.process_id),
        ("processor_max_mhz", optNatJson misc.processor_max_mhz),
        ("processor_current_mhz", optNatJson misc.processor_current_mhz)]

/-- The body of `summarize_minidump` after the dump was opened: each
section contributes its fields to the summary object exactly when its
stream decodes. -/
def summarizeDump (reason : CrashReasonFn) (dump : Minidump) : Json :=
  .obj (
    (match dump.system_info with
     | some sys =>
         [("os", .obj [("family", .str sys.os), ("cpu", .str sys.cpu)])]
     | none => [])
    ++
    (match dump.exception with
     | some exc =>
         let reasonStr :=
           match dump.system_info with
           | some sys => reason exc.raw_code sys.os sys.cpu
           | none => "Unknown"
         [("exception", .obj [("reason", .str reasonStr),
                              ("thread_id", .num exc.thread_id)])]
     | none => [])
    ++
    (match dump.thread_list with
     | some threads =>
         [("thread_count", .num threads.length),
          ("top_frames", .arr (threads.map (threadIpEntry dump)))]
     | none => [])
    ++
    (match dump.misc_info with
     | some misc => [("misc_info", miscInfoJson misc)]
     | none => [])
    ++
    (match dump.module_list with
     | some mods =>
         [("modules", .obj [("count", .num mods.length),
                            ("list", .arr (mods.map moduleToJson))])]
     | none => [])
    ++
    (match dump.unloaded_list with
     | some ul => [("unloaded_module_count", .num ul.length)]
     | none => [])
    ++
    (match dump.memory_info_list with
     | some mil => [("memory_regions", .num mil.length)]
     | none =>
         match dump.memory_list with
         | some ml => [("memory_regions", .num ml.length)]
         | none => []))

/-- `summarize_minidump`: fails exactly when `Minidump::read_path`
fails (missing or unopenable snapshot file); decodes the dump's
sections otherwise. -/
def summarize_minidump (reason : CrashReasonFn) (dumpFile : Option Minidump) :
    Option Json :=
  dumpFile.map (summarizeDump reason)

/-- The read-only filesystem as the server sees it: the directory
listing (`none` when `read_dir` itself fails), the outcome of reading
and JSON-parsing a path (`none` on read or parse failure), and the
outcome of `Minidump::read_path` on a path. -/
structure ServerFS where
  readDir : Option (List String)
  load : String → Option Json
  readDump : String → Option Minidump

/-- `load_sentry_json`: read and parse `crash_report_<id>.json`;
fails when reading or parsing fails. -/
def load_sentry_json (fs : ServerFS) (id : String) : Option Json :=
  fs.load (reportFilename id)

/-- The listing entry built from a parsed report: the string values of
the report's `timestamp` and `message` fields, each optional. -/
def mkCrashSummary (id : String) (json : Json) : CrashSummary :=
  { id := id
    timestamp := (json.getField "timestamp").bind Json.asStr
    message := (json.getField "message").bind Json.asStr }

/-- `GET /crashes`: `none` models the 500 outcome when the directory
cannot be enumerated; otherwise each collected id whose report loads
and parses contributes one entry, and failing ids are skipped. -/
def get_crashes (fs : ServerFS) : Option (List CrashSummary) :=
  match fs.readDir with
  | none => none
  | some entries =>
      some ((collect_crash_ids entries).filterMap fun id =>
        (load_sentry_json fs id).map (mkCrashSummary id))

/-- The `GET /crash/{id}` response body. -/
structure CrashDetail where
  sentry_report : Json
  minidump_summary : Option Json

/-- The outcome of `GET /crash/{id}`. -/
inductive DetailResponse where
  | notFound : DetailResponse
  | ok : CrashDetail → DetailResponse

/-- `GET /crash/{id}`: not-found when the report fails to load or
parse; otherwise the report, with the snapshot summary downgraded to
absent when summarization fails. -/
def get_crash (fs : ServerFS) (reason : CrashReasonFn) (id : String) :
    DetailResponse :=
  match load_sentry_json fs id with
  | none => .notFound
  | some sentry =>
      .ok { sentry_report := sentry
            minidump_summary := summarize_minidump reason (fs.readDump (dumpFilename id)) }

/-! ## Concrete instances used by witnesses and counterexamples -/

/-- Concrete frames: raw capture order A (outer), then B, then C (inner). -/
def frameA : MyFrame := ⟨some "main.rs", some 10, some 1, some "A"⟩

def frameB : MyFrame := ⟨some "main.rs", some 20, some 2, some "B"⟩

def frameC : MyFrame := ⟨some "main.rs", some 30, some 3, some "C"⟩

/-- A filesystem with one well-formed report and no snapshot. -/
def fsDetail : ServerFS :=
  { readDir := some ["crash_report_abc.json"]
    load := fun path =>
      if path = "crash_report_abc.json" then
        some (.obj [("message", .str "hi")])
      else none
    readDump := fun _ => none }

/-- A directory with one well-formed report ("good") and one report that
fails to parse ("bad"). -/
def fsList : ServerFS :=
  { readDir := some ["crash_report_good.json", "crash_report_bad.json"]
    load := fun path =>
      if path = "crash_report_good.json" then
        some (.obj [("timestamp", .str "1.5"), ("message", .str "ok")])
      else none
    readDump := fun _ => none }

/-- A thread whose context blob cannot be decoded. -/
def stuckThread : MinidumpThread := ⟨fun _ _ => none⟩

/-- A dump whose only thread is unresolvable. -/
def dumpOneThread : Minidump :=
  { system_info := some ⟨"Linux", "X86_64"⟩
    exception := none
    thread_list := some [stuckThread]
    misc_info := none
    module_list := none
    unloaded_list := none
    memory_info_list := none
    memory_list := none }

/-- A dump with an exception and decoded system info. -/
def dumpExc : Minidump :=
  { system_info := some ⟨"Linux", "X86_64"⟩
    exception := some ⟨11, 42⟩
    thread_list := none
    misc_info := none
    module_list := none
    unloaded_list := none
    memory_info_list := none
    memory_list := none }

/-- The same dump with system info missing. -/
def dumpExcNoSys : Minidump :=
  { dumpExc with system_info := none }

/-! ## Shared lemmas -/

theorem lookupField_append (a b : List (String × Json)) (k : String) :
    lookupField (a ++ b) k = (lookupField a k).or (lookupField b k) := by
  induction a with
  | nil => simp [lookupField]
  | cons hd tl ih =>
      obtain ⟨k', v⟩ := hd
      by_cases h : k' = k <;> simp [lookupField, h, ih]

theorem buildStacktrace_eq (raw : List MyFrame) :
    buildStacktrace raw = if raw = [] then none else some ⟨raw.reverse⟩ := by
  cases raw with
  | nil => rfl
  | cons a l =>
      simp only [buildStacktrace, List.reverse_cons]
      rw [if_neg (by simp), if_neg (by simp)]

/-! ## Claims about the recorder -/

/-- C3 counterexample: for a payload that is not a string, the extracted
message is the code's literal "Panic occurred without a string message.",
not the claimed literal "no message available". -/
theorem extractMessage_fallback_cex :
    extractMessage PanicPayload.other = "Panic occurred without a string message." ∧
    extractMessage PanicPayload.other ≠ "no message available" :=
  ⟨rfl, by decide⟩

/-- C3 (amended): message extraction tries the `&str` downcast first, then
the `String` downcast, and otherwise substitutes the fixed fallback literal
"Panic occurred without a string message."; the step never fails — the
assembled event's message field is `some` for every payload. -/
theorem extractMessage_spec (eid ts : String) (raw : List MyFrame) :
    (∀ s, (mkSentryEvent eid ts (.strRef s) raw).message = some s) ∧
    (∀ s, (mkSentryEvent eid ts (.strOwned s) raw).message = some s) ∧
    (mkSentryEvent eid ts .other raw).message =
      some "Panic occurred without a string message." ∧
    (∀ p, (mkSentryEvent eid ts p raw).message = some (extractMessage p)) :=
  ⟨fun _ => rfl, fun _ => rfl, rfl, fun _ => rfl⟩

/-- C5 counterexample: in the serialized event the timestamp field is a JSON
string (here "1700000000.25"), not a numeric value. -/
theorem timestamp_not_number_cex :
    (sentryEventToJson (mkSentryEvent "e1" "1700000000.25" PanicPayload.other [])).getField
      "timestamp" = some (Json.str "1700000000.25") ∧
    Json.isNumber (((sentryEventToJson (mkSentryEvent "e1" "1700000000.25"
      PanicPayload.other [])).getField "timestamp").getD Json.null) = false :=
  ⟨rfl, rfl⟩

/-- C5 (amended): the persisted timestamp is the recorder's decimal rendering
of seconds since the UNIX epoch, held in a `String` field and serialized as a
JSON string (not as a JSON number). -/
theorem timestamp_string_field (eid ts : String) (p : PanicPayload)
    (raw : List MyFrame) :
    (mkSentryEvent eid ts p raw).timestamp = ts ∧
    (sentryEventToJson (mkSentryEvent eid ts p raw)).getField "timestamp"
      = some (.str ts) :=
  ⟨rfl, rfl⟩

/-- C6: for a nonempty raw capture sequence the persisted stacktrace is its
exact reversal, so the frames are innermost call first. -/
theorem stacktrace_reverses_frames (eid ts : String) (p : PanicPayload)
    (raw : List MyFrame) (h : raw ≠ []) :
    ∃ st, (mkSentryEvent eid ts p raw).stacktrace = some st ∧
      st.frames = raw.reverse := by
  refine ⟨⟨raw.reverse⟩, ?_, rfl⟩
  simp [mkSentryEvent, buildStacktrace_eq, h]

/-- C6 witness: raw capture order [A, B, C] persists as [C, B, A]. -/
theorem stacktrace_reverses_frames_witness :
    ∃ st, (mkSentryEvent "e" "0" PanicPayload.other
        [frameA, frameB, frameC]).stacktrace = some st ∧
      st.frames = [frameC, frameB, frameA] := by
  simpa using stacktrace_reverses_frames "e" "0" PanicPayload.other
    [frameA, frameB, frameC] (by simp)

/-- C9: capturing a crash whose payload is the string P (as either string
variant) and reading the message field back from the serialized report
yields P. -/
theorem message_roundtrip (eid ts P : String) (raw : List MyFrame)
    (p : PanicPayload) (h : p = .strRef P ∨ p = .strOwned P) :
    ((sentryEventToJson (mkSentryEvent eid ts p raw)).getField "message").bind
      Json.asStr = some P := by
  rcases h with h | h <;> subst h <;> rfl

/-- C9 witness: the payload "boom" round-trips through the report. -/
theorem message_roundtrip_witness :
    ((sentryEventToJson (mkSentryEvent "e" "0" (PanicPayload.strRef "boom")
        [])).getField "message").bind Json.asStr = some "boom" :=
  message_roundtrip "e" "0" "boom" [] (PanicPayload.strRef "boom") (Or.inl rfl)

/-- C10: the persisted stacktrace is absent — `None` in the struct, `null` in
the serialized report — exactly when the resolved raw frame list is empty,
and present exactly when at least one frame was resolved. -/
theorem stacktrace_presence (eid ts : String) (p : PanicPayload)
    (raw : List MyFrame) :
    ((mkSentryEvent eid ts p raw).stacktrace = none ↔ raw = []) ∧
    ((sentryEventToJson (mkSentryEvent eid ts p raw)).getField "stacktrace"
        = some Json.null ↔ raw = []) ∧
    ((∃ st, (mkSentryEvent eid ts p raw).stacktrace = some st) ↔ raw ≠ []) := by
  by_cases h : raw = []
  · subst h
    refine ⟨by simp [mkSentryEvent, buildStacktrace_eq], ?_, by simp [mkSentryEvent, buildStacktrace_eq]⟩
    simp [mkSentryEvent, buildStacktrace_eq, sentryEventToJson, Json.getField,
      lookupField]
  · refine ⟨by simp [mkSentryEvent, buildStacktrace_eq, h], ?_, by simp [mkSentryEvent, buildStacktrace_eq, h]⟩
    simp only [sentryEventToJson, mkSentryEvent, buildStacktrace_eq, if_neg h]
    constructor
    · intro hnull
      exact absurd hnull (by simp [Json.getField, lookupField, stacktraceToJson])
    · intro h'
      exact absurd h' h

/-! ## Claims about the server -/

/-- C1: `GET /crash/{id}` fails with a not-found outcome exactly when loading
and parsing the textual report fails; when the report loads but the paired
snapshot cannot be located and summarized, the call succeeds and returns the
report with an absent summary. -/
theorem detail_outcomes (fs : ServerFS) (reason : CrashReasonFn) (id : String) :
    (get_crash fs reason id = .notFound ↔ load_sentry_json fs id = none) ∧
    (∀ sentry, load_sentry_json fs id = some sentry →
      fs.readDump (dumpFilename id) = none →
      get_crash fs reason id = .ok ⟨sentry, none⟩) := by
  constructor
  · cases hl : load_sentry_json fs id <;> simp [get_crash, hl]
  · intro sentry hs hd
    simp [get_crash, hs, summarize_minidump, hd]

/-- C1 witness: for id "abc" the report loads and the snapshot read fails,
so the call succeeds with an absent summary; for id "missing" the not-found
outcome coincides with the report load failing. -/
theorem detail_outcomes_witness :
    get_crash fsDetail (fun _ _ _ => "Reason") "abc"
      = .ok ⟨.obj [("message", .str "hi")], none⟩ ∧
    (get_crash fsDetail (fun _ _ _ => "Reason") "missing" = .notFound ↔
      load_sentry_json fsDetail "missing" = none) := by
  constructor
  · exact (detail_outcomes fsDetail (fun _ _ _ => "Reason") "abc").2 _ rfl rfl
  · exact (detail_outcomes fsDetail (fun _ _ _ => "Reason") "missing").1

/-- C2: when the directory enumerates, the listing never aborts: it contains
the entry built from each collected id whose report loads and parses, and
every entry of the listing comes from such an id — an id whose report fails
to read or parse contributes nothing. -/
theorem listing_entries (fs : ServerFS) (entries : List String)
    (h : fs.readDir = some entries) :
    ∃ l, get_crashes fs = some l ∧
      (∀ id json, id ∈ collect_crash_ids entries →
        load_sentry_json fs id = some json → mkCrashSummary id json ∈ l) ∧
      (∀ e, e ∈ l → e.id ∈ collect_crash_ids entries ∧
        ∃ json, load_sentry_json fs e.id = some json ∧
          e = mkCrashSummary e.id json) := by
  refine ⟨(collect_crash_ids entries).filterMap
      (fun id => (load_sentry_json fs id).map (mkCrashSummary id)), ?_, ?_, ?_⟩
  · simp [get_crashes, h]
  · intro id json hid hload
    exact List.mem_filterMap.mpr ⟨id, hid, by rw [hload]; rfl⟩
  · intro e he
    obtain ⟨id, hid, heq⟩ := List.mem_filterMap.mp he
    obtain ⟨json, hload, hmk⟩ := Option.map_eq_some'.mp heq
    subst hmk
    exact ⟨hid, json, hload, rfl⟩

/-- C2 witness: with one valid and one malformed report the listing succeeds
and contains the valid report's entry; computed out, it is exactly that one
entry. -/
theorem listing_entries_witness :
    (∃ l, get_crashes fsList = some l ∧
      mkCrashSummary "good"
        (.obj [("timestamp", .str "1.5"), ("message", .str "ok")]) ∈ l) ∧
    get_crashes fsList = some [mkCrashSummary "good"
      (.obj [("timestamp", .str "1.5"), ("message", .str "ok")])] := by
  constructor
  · obtain ⟨l, hl, hmem, _⟩ := listing_entries fsList
      ["crash_report_good.json", "crash_report_bad.json"] rfl
    exact ⟨l, hl, hmem "good" _ (by decide) rfl⟩
  · rfl

/-- C4 counterexample: a thread whose instruction pointer cannot be resolved
gets the entry "N/A", which is not the claimed marker "unavailable". -/
theorem thread_marker_cex :
    (summarizeDump (fun _ _ _ => "R") dumpOneThread).getField "top_frames"
      = some (.arr [.str "N/A"]) ∧ ("N/A" : String) ≠ "unavailable" :=
  ⟨rfl, by decide⟩

/-- C4 (amended): every thread of the thread list contributes exactly one
entry to the summary's top-frames sequence (no thread is omitted), and a
thread whose instruction pointer cannot be resolved — per-thread context
missing, or system info entirely absent — contributes the fixed marker
"N/A". -/
theorem thread_entries (reason : CrashReasonFn) (dump : Minidump)
    (threads : List MinidumpThread) (h : dump.thread_list = some threads) :
    (summarizeDump reason dump).getField "top_frames"
      = some (.arr (threads.map (threadIpEntry dump))) ∧
    (threads.map (threadIpEntry dump)).length = threads.length ∧
    (∀ t, t ∈ threads →
      (∀ sys, dump.system_info = some sys →
        t.resolveContext sys dump.misc_info = none) →
      threadIpEntry dump t = .str "N/A") := by
  refine ⟨?_, by simp, ?_⟩
  · rcases dump with ⟨si, ex, tl, mi, ml, ul, mil, mel⟩
    cases h
    cases si <;> cases ex <;>
      simp [summarizeDump, Json.getField, lookupField_append, lookupField,
        Option.none_or]
  · intro t _ hun
    cases hsi : dump.system_info with
    | none => simp [threadIpEntry, hsi]
    | some sys => simp [threadIpEntry, hsi, hun sys hsi]

/-- C4 witness: the unresolvable thread is kept in the sequence and its entry
is the fixed "N/A" marker. -/
theorem thread_entries_witness :
    (summarizeDump (fun _ _ _ => "R") dumpOneThread).getField "top_frames"
      = some (.arr ([stuckThread].map (threadIpEntry dumpOneThread))) ∧
    threadIpEntry dumpOneThread stuckThread = .str "N/A" := by
  obtain ⟨h1, _, h3⟩ := thread_entries (fun _ _ _ => "R") dumpOneThread
    [stuckThread] rfl
  exact ⟨h1, h3 stuckThread (by simp) (fun _ _ => rfl)⟩

/-- C7: when the snapshot has an exception section, the exception entry
always carries the faulting thread id; its reason is the crash-reason
decoding of the raw exception code together with the OS family and CPU
architecture when system info decoded, and the fixed "Unknown" reason when
system info is unavailable. -/
theorem exception_entry (reason : CrashReasonFn) (dump : Minidump)
    (exc : MinidumpException) (h : dump.exception = some exc) :
    (∀ sys, dump.system_info = some sys →
      (summarizeDump reason dump).getField "exception"
        = some (.obj [("reason", .str (reason exc.raw_code sys.os sys.cpu)),
                      ("thread_id", .num exc.thread_id)])) ∧
    (dump.system_info = none →
      (summarizeDump reason dump).getField "exception"
        = some (.obj [("reason", .str "Unknown"),
                      ("thread_id", .num exc.thread_id)])) := by
  constructor
  · intro sys hsi
    simp [summarizeDump, h, hsi, Json.getField, lookupField_append,
      lookupField, Option.none_or]
  · intro hsi
    simp [summarizeDump, h, hsi, Json.getField, lookupField_append,
      lookupField, Option.none_or]

/-- C7 witness: with system info the reason is the decoding applied to the
raw code and both tags; without it the reason is "Unknown"; the faulting
thread id 42 is reported in both cases. -/
theorem exception_entry_witness :
    (summarizeDump (fun code os cpu => os ++ "/" ++ cpu ++ "/" ++ toString code)
        dumpExc).getField "exception"
      = some (.obj [("reason", .str "Linux/X86_64/11"),
                    ("thread_id", .num 42)]) ∧
    (summarizeDump (fun code os cpu => os ++ "/" ++ cpu ++ "/" ++ toString code)
        dumpExcNoSys).getField "exception"
      = some (.obj [("reason", .str "Unknown"),
                    ("thread_id", .num 42)]) := by
  constructor
  · exact (exception_entry (fun code os cpu => os ++ "/" ++ cpu ++ "/" ++ toString code)
      dumpExc ⟨11, 42⟩ rfl).1 ⟨"Linux", "X86_64"⟩ rfl
  · exact (exception_entry (fun code os cpu => os ++ "/" ++ cpu ++ "/" ++ toString code)
      dumpExcNoSys ⟨11, 42⟩ rfl).2 rfl

/-- C8: the summary's memory-region count comes from the modern descriptor
list when present, else from the legacy list when present, and the field is
omitted when neither is present; the two counts are never both emitted and
never summed. -/
theorem memory_region_count (reason : CrashReasonFn) (dump : Minidump) :
    (summarizeDump reason dump).getField "memory_regions"
      = match dump.memory_info_list with
        | some mil => some (.num mil.length)
        | none =>
            match dump.memory_list with
            | some ml => some (.num ml.length)
            | none => none := by
  rcases dump with ⟨si, ex, tl, mi, ml, ul, mil, mel⟩
  cases si <;> cases ex <;> cases tl <;> cases mi <;> cases ml <;> cases ul <;>
    cases mil <;> cases mel <;>
    simp [summarizeDump, Json.getField, lookupField_append, lookupField,
      Option.none_or]

end Crash
